import Mathlib

/-!
Shallow embedding of the EcoStep carbon-footprint calculation core
(`04-merged.py`): the constant tables, `calc_transport`, `calc_electricity`,
`calc_diet`, `calc_totals` and `smart_tip`, with Python floats modelled as
exact rationals (every literal in the source is decimal, so this is exact),
Python dicts as association lists, and a raised `KeyError` as `none`.
-/

namespace EcoStep

/-- `leadMatch n h` holds when `n` is an initial segment of `h`. -/
def leadMatch : List Char → List Char → Bool
  | [], _ => true
  | _ :: _, [] => false
  | a :: as, b :: bs => a == b && leadMatch as bs

/-- Python's `needle in hay` on strings restricted to lists of characters:
`needle` occurs as a contiguous sublist of `hay`. -/
def listContains (needle : List Char) : List Char → Bool
  | [] => needle.isEmpty
  | c :: rest => leadMatch needle (c :: rest) || listContains needle rest

/-- Python's substring test `needle in hay`. -/
def strContains (hay needle : String) : Bool :=
  listContains needle.data hay.data

/-- `PETROL_FACTOR = 2.06916` (kg CO2e per litre). -/
def PETROL_FACTOR : ℚ := 2.06916

/-- `DIESEL_FACTOR = 2.57082` (kg CO2e per litre). -/
def DIESEL_FACTOR : ℚ := 2.57082

/-- `GRID_FACTOR = 0.43` (kg CO2e per kWh). -/
def GRID_FACTOR : ℚ := 0.43

/-- `APPLIANCE_KW`: power draw in kWh per hour of use, in the source's
insertion order. -/
def APPLIANCE_KW : List (String × ℚ) :=
  [("AC (1.5 Ton)", 1.50),
   ("TV (LED)", 0.10),
   ("Laptop", 0.05),
   ("Lights (LED)", 0.01)]

/-- `DIET_FACTORS`: daily kg CO2e per diet category. -/
def DIET_FACTORS : List (String × ℚ) :=
  [("High Meat (Beef / Lamb)", 8.0),
   ("Mixed (Poultry / Fish)", 4.0),
   ("Vegetarian / Vegan (Plant-based)", 1.5)]

/-- `TREE_DAILY_ABS = 0.057` (kg CO2e absorbed by one mature tree per day). -/
def TREE_DAILY_ABS : ℚ := 0.057

/-- `PHONE_CHARGE_KG = 0.008` (kg CO2e per smartphone full charge). -/
def PHONE_CHARGE_KG : ℚ := 0.008

/-- `KM_CAR_FACTOR = 0.170` (kg CO2e per km average petrol car). -/
def KM_CAR_FACTOR : ℚ := 0.170

/-- `GRADE_LOW = 12.0` (below it the grade is Low). -/
def GRADE_LOW : ℚ := 12.0

/-- `GRADE_HIGH = 50.0` (above it the grade is High). -/
def GRADE_HIGH : ℚ := 50.0

/-- `calc_transport(fuel_type, litres)`: substring dispatch on the fuel-type
string, exactly as the source's `if "Petrol" in fuel_type: ... elif "Diesel"
in fuel_type: ... return 0.0`. -/
def calc_transport (fuel_type : String) (litres : ℚ) : ℚ :=
  if strContains fuel_type "Petrol" then litres * PETROL_FACTOR
  else if strContains fuel_type "Diesel" then litres * DIESEL_FACTOR
  else 0

/-- The generator `sum(hours[a] * APPLIANCE_KW[a] for a in APPLIANCE_KW)`:
walks the appliance table in order; a key of the table absent from `hours`
raises `KeyError` (modelled `none`), otherwise the sum is returned. -/
def sumHoursKw (hours : List (String × ℚ)) : List (String × ℚ) → Option ℚ
  | [] => some 0
  | (a, kw) :: rest =>
    match List.lookup a hours with
    | none => none
    | some h =>
      match sumHoursKw hours rest with
      | none => none
      | some s => some (h * kw + s)

/-- `calc_electricity(hours)`: `(kwh, kwh * GRID_FACTOR)`, propagating the
`KeyError` of a missing appliance as `none`. -/
def calc_electricity (hours : List (String × ℚ)) : Option (ℚ × ℚ) :=
  match sumHoursKw hours APPLIANCE_KW with
  | none => none
  | some kwh => some (kwh, kwh * GRID_FACTOR)

/-- `calc_diet(choice) = DIET_FACTORS.get(choice, 0.0)`. -/
def calc_diet (choice : String) : ℚ :=
  (List.lookup choice DIET_FACTORS).getD 0

/-- The result dict of `calc_totals`. -/
structure Totals where
  transport : ℚ
  electricity : ℚ
  diet : ℚ
  total : ℚ
  monthly : ℚ
  trees : ℚ
  phones : ℚ
  km_eq : ℚ
  grade : String
  badge : String
  badge_color : String
  dominant : String
deriving DecidableEq

/-- One step of Python's `max(..., key=lambda x: x[1])`: the candidate
replaces the current best only when its key is strictly greater, so ties
keep the earlier element. -/
def pickMax (best y : String × ℚ) : String × ℚ :=
  if y.2 > best.2 then y else best

/-- `calc_totals(transport, electricity, diet)` from the source: totals,
contextual equivalents guarded by `total > 0`, the three-band grade and the
first-encountered-maximum dominant category. -/
def calc_totals (transport electricity diet : ℚ) : Totals :=
  let total := transport + electricity + diet
  let monthly := total * 30
  let trees := if total > 0 then total / TREE_DAILY_ABS else 0
  let phones := if total > 0 then total / PHONE_CHARGE_KG else 0
  let km_eq := if total > 0 then total / KM_CAR_FACTOR else 0
  let grade := if total < GRADE_LOW then "Low"
    else if total ≤ GRADE_HIGH then "Moderate" else "High"
  let badge := if total < GRADE_LOW then "Excellent"
    else if total ≤ GRADE_HIGH then "Good" else "Needs Work"
  let badge_color := if total < GRADE_LOW then "#10b981"
    else if total ≤ GRADE_HIGH then "#f59e0b" else "#ef4444"
  let dominant :=
    (List.foldl pickMax ("Transport", transport)
      [("Electricity", electricity), ("Diet", diet)]).1
  ⟨transport, electricity, diet, total, monthly, trees, phones, km_eq,
   grade, badge, badge_color, dominant⟩

/-- `smart_tip(dominant) = tips.get(dominant)`: a lookup in the static
three-entry tip table, `None` (here `none`) on any other key. -/
def smart_tip (dominant : String) : Option (String × String) :=
  List.lookup dominant
    [("Transport",
      ("", "Your biggest footprint driver is **Transport**. Switching just 2 days/week to public transit or cycling can cut your transport emissions by up to **40%**.")),
     ("Electricity",
      ("", "Your biggest driver is **Energy Use**. Raising your AC thermostat by 2 °C and switching to LED bulbs could reduce your electricity emissions significantly.")),
     ("Diet",
      ("", "Your biggest driver is **Diet**. One meat-free day per week saves roughly **0.5 tonnes CO₂e/year** — equivalent to planting 9 trees."))]

/-- The `grade` field as a function of the total. -/
lemma calc_totals_grade (t e d : ℚ) :
    (calc_totals t e d).grade =
      if t + e + d < GRADE_LOW then "Low"
      else if t + e + d ≤ GRADE_HIGH then "Moderate" else "High" := rfl

/-- The `dominant` field after unfolding the two-step fold. -/
lemma calc_totals_dominant (t e d : ℚ) :
    (calc_totals t e d).dominant =
      (pickMax (pickMax ("Transport", t) ("Electricity", e)) ("Diet", d)).1 := rfl

lemma GRADE_LOW_eq : GRADE_LOW = 12 := by norm_num [GRADE_LOW]

lemma GRADE_HIGH_eq : GRADE_HIGH = 50 := by norm_num [GRADE_HIGH]

/-- Helper: `calc_electricity` yields `none` exactly when one of the four
appliance keys is absent from the hours mapping. -/
lemma calc_electricity_eq_none_iff (H : List (String × ℚ)) :
    calc_electricity H = none ↔
      (List.lookup "AC (1.5 Ton)" H = none ∨ List.lookup "TV (LED)" H = none ∨
       List.lookup "Laptop" H = none ∨ List.lookup "Lights (LED)" H = none) := by
  rcases hA : List.lookup "AC (1.5 Ton)" H with _ | a <;>
  rcases hT : List.lookup "TV (LED)" H with _ | b <;>
  rcases hL : List.lookup "Laptop" H with _ | c <;>
  rcases hG : List.lookup "Lights (LED)" H with _ | g <;>
  simp [calc_electricity, sumHoursKw, APPLIANCE_KW, hA, hT, hL, hG]

/-- Helper: a recognized diet category has factor 8.0, 4.0 or 1.5, so its
contribution is at least 1.5. -/
lemma calc_diet_recognized_ge (choice : String)
    (hc : (List.lookup choice DIET_FACTORS).isSome = true) :
    (3 / 2 : ℚ) ≤ calc_diet choice := by
  unfold calc_diet
  rcases h : List.lookup choice DIET_FACTORS with _ | v
  · rw [h] at hc; simp at hc
  · have hv : v = 8.0 ∨ v = 4.0 ∨ v = 1.5 := by
      cases h1 : choice == "High Meat (Beef / Lamb)" <;>
      cases h2 : choice == "Mixed (Poultry / Fish)" <;>
      cases h3 : choice == "Vegetarian / Vegan (Plant-based)" <;>
      simp only [DIET_FACTORS, List.lookup, h1, h2, h3] at h <;>
      simp_all
    rcases hv with hv | hv | hv <;> rw [hv] <;>
      norm_num [Option.getD_some]

/-- Helper: the dominant string is always one of the three categories. -/
lemma dominant_mem (t e d : ℚ) :
    (calc_totals t e d).dominant = "Transport" ∨
    (calc_totals t e d).dominant = "Electricity" ∨
    (calc_totals t e d).dominant = "Diet" := by
  have hd := calc_totals_dominant t e d
  simp only [pickMax, gt_iff_lt] at hd
  split_ifs at hd <;> simp [hd]

/-- Helper: `smart_tip` is defined exactly on the three category strings. -/
lemma smart_tip_isSome_iff (s : String) :
    (smart_tip s).isSome = true ↔
      (s = "Transport" ∨ s = "Electricity" ∨ s = "Diet") := by
  cases h1 : s == "Transport" <;> cases h2 : s == "Electricity" <;>
    cases h3 : s == "Diet" <;>
    simp only [smart_tip, List.lookup, h1, h2, h3] <;>
    simp_all

/-- C1: the grade of `calc_totals` is a three-band classification of the
total: below 12.0 it is Low, between 12.0 and 50.0 inclusive it is Moderate,
above 50.0 it is High; in particular a total of 11.999999 grades Low, 12.0
and 50.0 grade Moderate, and 50.000001 grades High. -/
theorem grade_three_band (t e d : ℚ) :
    ((calc_totals t e d).grade = "Low" ↔ t + e + d < 12) ∧
    ((calc_totals t e d).grade = "Moderate" ↔ 12 ≤ t + e + d ∧ t + e + d ≤ 50) ∧
    ((calc_totals t e d).grade = "High" ↔ 50 < t + e + d) ∧
    (calc_totals 11.999999 0 0).grade = "Low" ∧
    (calc_totals 12 0 0).grade = "Moderate" ∧
    (calc_totals 50 0 0).grade = "Moderate" ∧
    (calc_totals 50.000001 0 0).grade = "High" := by
  have hg := calc_totals_grade t e d
  rw [GRADE_LOW_eq, GRADE_HIGH_eq] at hg
  refine ⟨?_, ?_, ?_, ?_, ?_, ?_, ?_⟩
  · rw [hg]; split_ifs with h1 h2 <;> simp <;> linarith
  · rw [hg]; split_ifs with h1 h2 <;> push_neg at * <;> simp <;>
      first
      | exact ⟨by linarith, by linarith⟩
      | (intro hc; linarith)
  · rw [hg]; split_ifs with h1 h2 <;> push_neg at * <;> simp <;> linarith
  · rw [calc_totals_grade, GRADE_LOW_eq, if_pos (by norm_num)]
  · rw [calc_totals_grade, GRADE_LOW_eq, GRADE_HIGH_eq,
      if_neg (by norm_num), if_pos (by norm_num)]
  · rw [calc_totals_grade, GRADE_LOW_eq, GRADE_HIGH_eq,
      if_neg (by norm_num), if_pos (by norm_num)]
  · rw [calc_totals_grade, GRADE_LOW_eq, GRADE_HIGH_eq,
      if_neg (by norm_num), if_neg (by norm_num)]

/-- C2: `calc_totals` returns the exact sum as `total`, thirty times it as
`monthly`, and the three context equivalents `total / 0.057`,
`total / 0.008`, `total / 0.170` when the total is positive and 0 when the
total is not positive. -/
theorem totals_monthly_context_formulas (t e d : ℚ) :
    (calc_totals t e d).total = t + e + d ∧
    (calc_totals t e d).monthly = (t + e + d) * 30 ∧
    (calc_totals t e d).trees =
      (if 0 < t + e + d then (t + e + d) / 0.057 else 0) ∧
    (calc_totals t e d).phones =
      (if 0 < t + e + d then (t + e + d) / 0.008 else 0) ∧
    (calc_totals t e d).km_eq =
      (if 0 < t + e + d then (t + e + d) / 0.170 else 0) := by
  refine ⟨rfl, rfl, ?_, ?_, ?_⟩ <;>
    simp only [calc_totals, TREE_DAILY_ABS, PHONE_CHARGE_KG, KM_CAR_FACTOR,
      gt_iff_lt]

/-- C3: the dominant category of `calc_totals` is the one with the strictly
largest value, and on ties the first-encountered maximum in the order
Transport, Electricity, Diet wins; in particular the all-equal input
(5, 5, 5) yields Transport. -/
theorem dominant_first_encountered_max (t e d : ℚ) :
    ((calc_totals t e d).dominant = "Transport" ↔ e ≤ t ∧ d ≤ t) ∧
    ((calc_totals t e d).dominant = "Electricity" ↔ t < e ∧ d ≤ e) ∧
    ((calc_totals t e d).dominant = "Diet" ↔ t < d ∧ e < d) ∧
    (calc_totals 5 5 5).dominant = "Transport" := by
  have h555 : (calc_totals 5 5 5).dominant = "Transport" := by
    rw [calc_totals_dominant]
    simp only [pickMax, gt_iff_lt]
    rw [if_neg (lt_irrefl (5 : ℚ)), if_neg (lt_irrefl (5 : ℚ))]
  have hd := calc_totals_dominant t e d
  simp only [pickMax, gt_iff_lt] at hd
  split_ifs at hd with h1 h2 h3 <;> push_neg at * <;> rw [hd] <;>
    refine ⟨⟨fun hs => ?_, fun hn => ?_⟩, ⟨fun hs => ?_, fun hn => ?_⟩,
      ⟨fun hs => ?_, fun hn => ?_⟩, h555⟩ <;>
    simp_all <;> linarith

/-- C4: `calc_transport` maps the Petrol option to `litres * 2.06916`, the
Diesel option to `litres * 2.57082`, and the None (EV / Walk / Cycle)
option to 0, for every litres value. -/
theorem transport_factor_per_option (L : ℚ) :
    calc_transport "Petrol" L = L * 2.06916 ∧
    calc_transport "Diesel" L = L * 2.57082 ∧
    calc_transport "None (EV / Walk / Cycle)" L = 0 := by
  have hPP : strContains "Petrol" "Petrol" = true := by decide
  have hDP : strContains "Diesel" "Petrol" = false := by decide
  have hDD : strContains "Diesel" "Diesel" = true := by decide
  have hNP : strContains "None (EV / Walk / Cycle)" "Petrol" = false := by decide
  have hND : strContains "None (EV / Walk / Cycle)" "Diesel" = false := by decide
  refine ⟨?_, ?_, ?_⟩ <;>
    simp [calc_transport, hPP, hDP, hDD, hNP, hND, PETROL_FACTOR, DIESEL_FACTOR]

/-- C5: on an hours mapping containing all four appliance keys,
`calc_electricity` returns the pair of the kWh sum weighted by the fixed
power draws (AC 1.50, TV 0.10, Laptop 0.05, Lights 0.01) and that sum
times 0.43. -/
theorem electricity_complete_sum (H : List (String × ℚ)) (a tv lap li : ℚ)
    (hA : List.lookup "AC (1.5 Ton)" H = some a)
    (hT : List.lookup "TV (LED)" H = some tv)
    (hL : List.lookup "Laptop" H = some lap)
    (hG : List.lookup "Lights (LED)" H = some li) :
    calc_electricity H =
      some (a * 1.50 + tv * 0.10 + lap * 0.05 + li * 0.01,
        (a * 1.50 + tv * 0.10 + lap * 0.05 + li * 0.01) * 0.43) := by
  simp only [calc_electricity, sumHoursKw, APPLIANCE_KW, GRID_FACTOR,
    hA, hT, hL, hG, Option.some.injEq, Prod.mk.injEq]
  constructor <;> ring

/-- C5 witness: the defaults of the source (AC 2 h, TV 2 h, Laptop 4 h,
Lights 3 h) produce the spec's 3.43 kWh scenario. -/
theorem electricity_complete_sum_witness :
    calc_electricity
      [("AC (1.5 Ton)", (2 : ℚ)), ("TV (LED)", 2), ("Laptop", 4),
       ("Lights (LED)", 3)] =
      some ((2 : ℚ) * 1.50 + 2 * 0.10 + 4 * 0.05 + 3 * 0.01,
        ((2 : ℚ) * 1.50 + 2 * 0.10 + 4 * 0.05 + 3 * 0.01) * 0.43) :=
  electricity_complete_sum
    [("AC (1.5 Ton)", (2 : ℚ)), ("TV (LED)", 2), ("Laptop", 4),
     ("Lights (LED)", 3)] 2 2 4 3 (by decide) (by decide) (by decide) (by decide)

/-- C6 counterexample: with only the AC key present, `calc_electricity`
does not return a pair computed over the present keys; it fails
(the `KeyError` of the first absent key, modelled as `none`). -/
theorem electricity_missing_key_counterexample :
    calc_electricity [("AC (1.5 Ton)", (2 : ℚ))] = none ∧
    calc_electricity [("AC (1.5 Ton)", (2 : ℚ))] ≠
      some ((2 : ℚ) * 1.50, (2 : ℚ) * 1.50 * 0.43) := by
  have h : calc_electricity [("AC (1.5 Ton)", (2 : ℚ))] = none :=
    (calc_electricity_eq_none_iff _).mpr (Or.inr (Or.inl (by decide)))
  exact ⟨h, by rw [h]; decide⟩

/-- C6 amended: when the hours mapping is missing one or more of the four
fixed appliance names, `calc_electricity` raises `KeyError` (modelled as
`none`) instead of summing over the present keys. -/
theorem electricity_missing_key_fails (H : List (String × ℚ))
    (h : List.lookup "AC (1.5 Ton)" H = none ∨ List.lookup "TV (LED)" H = none ∨
         List.lookup "Laptop" H = none ∨ List.lookup "Lights (LED)" H = none) :
    calc_electricity H = none :=
  (calc_electricity_eq_none_iff H).mpr h

/-- C6 amended, witness: the empty mapping makes `calc_electricity` fail. -/
theorem electricity_missing_key_fails_witness :
    calc_electricity ([] : List (String × ℚ)) = none :=
  electricity_missing_key_fails [] (Or.inl rfl)

/-- C7: `calc_electricity` fails (raises the missing-key error, modelled as
`none`) exactly when the mapping omits at least one of the four fixed
appliance keys; on a complete mapping it returns a result. -/
theorem electricity_none_iff_missing (H : List (String × ℚ)) :
    calc_electricity H = none ↔
      (List.lookup "AC (1.5 Ton)" H = none ∨ List.lookup "TV (LED)" H = none ∨
       List.lookup "Laptop" H = none ∨ List.lookup "Lights (LED)" H = none) :=
  calc_electricity_eq_none_iff H

/-- C8 counterexample: `"Petrolhead"` is none of the three options, yet
`calc_transport "Petrolhead" 1 = 2.06916 ≠ 0`, because the source tests
substring containment, not equality with the recognized options. -/
theorem transport_substring_counterexample :
    calc_transport "Petrolhead" 1 = 2.06916 ∧
    "Petrolhead" ≠ "Petrol" ∧ "Petrolhead" ≠ "Diesel" ∧
    "Petrolhead" ≠ "None (EV / Walk / Cycle)" ∧ (2.06916 : ℚ) ≠ 0 := by
  have h1 : strContains "Petrolhead" "Petrol" = true := by decide
  refine ⟨?_, by decide, by decide, by decide, by norm_num⟩
  simp [calc_transport, h1, PETROL_FACTOR]

/-- C8 amended: for every string and every litres value, `calc_transport`
returns `litres * 2.06916` when the string contains "Petrol", else
`litres * 2.57082` when it contains "Diesel", else 0 — and it returns 0 for
every litres value exactly on the strings containing neither substring; a
non-option string containing "Diesel", such as "Dieselgate", silently gets
the diesel factor. -/
theorem transport_substring_dispatch (s : String) (L : ℚ) :
    calc_transport s L =
      (if strContains s "Petrol" then L * 2.06916
       else if strContains s "Diesel" then L * 2.57082 else 0) ∧
    ((∀ L2 : ℚ, calc_transport s L2 = 0) ↔
      (strContains s "Petrol" = false ∧ strContains s "Diesel" = false)) ∧
    calc_transport "Dieselgate" 1 = 2.57082 := by
  have hDd : strContains "Dieselgate" "Diesel" = true := by decide
  have hDp : strContains "Dieselgate" "Petrol" = false := by decide
  refine ⟨?_, ⟨?_, ?_⟩, ?_⟩
  · simp only [calc_transport, PETROL_FACTOR, DIESEL_FACTOR]
  · intro h0
    cases hP : strContains s "Petrol"
    · cases hDs : strContains s "Diesel"
      · exact ⟨rfl, rfl⟩
      · have h1 := h0 1
        simp only [calc_transport, hP, hDs, if_true, if_false,
          Bool.false_eq_true, one_mul] at h1
        norm_num [DIESEL_FACTOR] at h1
    · have h1 := h0 1
      simp only [calc_transport, hP, if_true, one_mul] at h1
      norm_num [PETROL_FACTOR] at h1
  · rintro ⟨hP, hDs⟩ L2
    simp [calc_transport, hP, hDs]
  · simp [calc_transport, hDd, hDp, DIESEL_FACTOR]

/-- C9: with non-negative transport and electricity and a recognized diet
category (factor at least 1.5), the total of `calc_totals` is positive and
never exactly 0, so the `total <= 0` branch of the context equivalents is
not taken; the guard is nevertheless present: whenever the total is not
positive, all three context equivalents are 0. -/
theorem diet_floor_positive_total (t e : ℚ) (choice : String)
    (ht : 0 ≤ t) (he : 0 ≤ e)
    (hc : (List.lookup choice DIET_FACTORS).isSome = true) :
    0 < (calc_totals t e (calc_diet choice)).total ∧
    (calc_totals t e (calc_diet choice)).total ≠ 0 ∧
    (calc_totals t e (calc_diet choice)).trees =
      (t + e + calc_diet choice) / TREE_DAILY_ABS ∧
    (∀ t2 e2 d2 : ℚ, t2 + e2 + d2 ≤ 0 →
      (calc_totals t2 e2 d2).trees = 0 ∧ (calc_totals t2 e2 d2).phones = 0 ∧
      (calc_totals t2 e2 d2).km_eq = 0) := by
  have hdge := calc_diet_recognized_ge choice hc
  have hpos : 0 < t + e + calc_diet choice := by linarith
  have htr : (calc_totals t e (calc_diet choice)).trees =
      if 0 < t + e + calc_diet choice
      then (t + e + calc_diet choice) / TREE_DAILY_ABS else 0 := by
    simp only [calc_totals, gt_iff_lt]
  refine ⟨hpos, hpos.ne', by rw [htr, if_pos hpos], ?_⟩
  intro t2 e2 d2 hle
  have hneg : ¬ (0 < t2 + e2 + d2) := not_lt.mpr hle
  refine ⟨?_, ?_, ?_⟩ <;> simp only [calc_totals, gt_iff_lt] <;>
    rw [if_neg hneg]

/-- C9 witness: zero transport and electricity with the plant-based diet
still give a positive total. -/
theorem diet_floor_positive_total_witness :
    0 < (calc_totals 0 0
      (calc_diet "Vegetarian / Vegan (Plant-based)")).total :=
  (diet_floor_positive_total 0 0 "Vegetarian / Vegan (Plant-based)"
    le_rfl le_rfl (by decide)).1

/-- C10: the dominant field of `calc_totals` is always one of "Transport",
"Electricity", "Diet"; `smart_tip` is defined on it, and `smart_tip` yields
a result exactly on these three strings. -/
theorem dominant_smart_tip_defined (t e d : ℚ) :
    ((calc_totals t e d).dominant = "Transport" ∨
     (calc_totals t e d).dominant = "Electricity" ∨
     (calc_totals t e d).dominant = "Diet") ∧
    (smart_tip (calc_totals t e d).dominant).isSome = true ∧
    (∀ s : String, (smart_tip s).isSome = true ↔
      (s = "Transport" ∨ s = "Electricity" ∨ s = "Diet")) :=
  ⟨dominant_mem t e d,
   (smart_tip_isSome_iff _).mpr (dominant_mem t e d),
   fun s => smart_tip_isSome_iff s⟩

end EcoStep
